import Mathlib

/-!
Verification of the AURA gesture-control pipeline (vision_service.py and
gesture_math.py), shallowly embedded in Lean 4.  Distances and times are
modelled as rationals; mouse side effects are modelled as explicit event lists.
-/

namespace Aura

/-- Button events issued through the Win32 mouse API (`MouseController`). -/
inductive MouseEvent
  | leftDown
  | leftUp
  | rightDown
  | rightUp
deriving DecidableEq, Repr

/-- The status string returned by `ClickHandler.process_pinch`, abstracted to a
finite enumeration (the Python code returns `""`, `"LEFT DOWN"`,
`"HOLD (…s)"`, `"RIGHT CLICK"` or `"RELEASED"`). -/
inductive PinchStatus
  | empty
  | leftDownStatus
  | holdStatus
  | rightClickStatus
  | releasedStatus
deriving DecidableEq, Repr

/-- The `GestureMode` enum from vision_service.py. -/
inductive GestureMode
  | idle
  | cursor
  | clicking
  | dragging
  | rightClicking
  | scrolling
  | volume
  | media
deriving DecidableEq, Repr

/-! Constants of `GestureThresholds` from vision_service.py. -/

/-- Distance for click trigger (pixels). -/
def PINCH_CLICK : ℚ := 30

/-- Distance for click release (pixels). -/
def PINCH_RELEASE : ℚ := 50

/-- Hold duration for right-click (seconds). -/
def RIGHT_CLICK_HOLD : ℚ := 1/2

/-- Pinch distance for precision mode (pixels). -/
def SNIPER_DISTANCE : ℚ := 45

/-- Min time between clicks (seconds). -/
def CLICK_DEBOUNCE : ℚ := 3/20

/-- 100 ms staleness timeout in `HandState.get_snapshot`. -/
def STALENESS_TIMEOUT : ℚ := 1/10

/-- The `ClickState` dataclass from vision_service.py. -/
structure ClickState where
  is_left_down : Bool := false
  is_right_down : Bool := false
  last_click_time : ℚ := 0
  pinch_start_time : ℚ := 0
  click_count : ℕ := 0
  last_click_count_reset : ℚ := 0
deriving DecidableEq, Repr

/-- Fresh `ClickState()` as produced by `ClickHandler.__init__`. -/
def ClickState.init : ClickState := {}

/-- Model of `MouseController.right_click`: right-down, brief delay, right-up.  The
delay has no observable effect in the embedding; the pulse is the event pair. -/
def right_click_pulse : List MouseEvent := [.rightDown, .rightUp]

/-- Model of `ClickHandler.process_pinch(pinch_dist, current_time)`.  Returns the
updated `ClickState`, the list of mouse events issued during the call (in
order), and the abstracted status string. -/
def process_pinch (s : ClickState) (pinch_dist current_time : ℚ) :
    ClickState × List MouseEvent × PinchStatus :=
  if pinch_dist < PINCH_CLICK then
    -- START OF NEW PINCH
    if s.is_left_down = false ∧ s.is_right_down = false then
      -- Debounce check
      if current_time - s.last_click_time > CLICK_DEBOUNCE then
        ({ s with pinch_start_time := current_time, is_left_down := true }, [.leftDown], .leftDownStatus)
      else
        (s, [], .empty)
    -- HELD PINCH - Check for right-click
    else if s.is_left_down = true then
      if current_time - s.pinch_start_time > RIGHT_CLICK_HOLD then
        -- Convert to right-click
        ({ s with is_left_down := false, is_right_down := true, last_click_time := current_time },
          .leftUp :: right_click_pulse, .rightClickStatus)
      else
        (s, [], .holdStatus)
    else
      (s, [], .empty)
  -- PINCH RELEASED
  else if pinch_dist > PINCH_RELEASE then
    let r₁ :=
      if s.is_left_down = true then
        ({ s with is_left_down := false, last_click_time := current_time }, [MouseEvent.leftUp], PinchStatus.releasedStatus)
      else
        (s, [], .empty)
    let s₂ :=
      if r₁.1.is_right_down = true then { r₁.1 with is_right_down := false }
      else r₁.1
    (s₂, r₁.2)
  else
    (s, [], .empty)

/-- Model of `ClickHandler.emergency_release`: release every currently-pressed button;
returns the new state and the events issued. -/
def emergency_release (s : ClickState) : ClickState × List MouseEvent :=
  let r₁ :=
    if s.is_left_down = true then
      ({ s with is_left_down := false }, [MouseEvent.leftUp])
    else (s, [])
  let r₂ :=
    if r₁.1.is_right_down = true then
      ({ r₁.1 with is_right_down := false }, [MouseEvent.rightUp])
    else (r₁.1, [])
  (r₂.1, r₁.2 ++ r₂.2)

/-- Run a sequence of `process_pinch` calls, given as (pinch distance,
call time) pairs; collect all issued mouse events in order. -/
def run_pinches (s : ClickState) : List (ℚ × ℚ) → ClickState × List MouseEvent
  | [] => (s, [])
  | (d, t) :: rest =>
    let r := process_pinch s d t
    let r' := run_pinches r.1 rest
    (r'.1, r.2.1 ++ r'.2)

/-- One observation handled by the vision loop while in cursor mode: either a
pinch frame fed to `process_pinch`, or a hand-lost frame triggering
`emergency_release` (vision_process_loop, no-hand branch). -/
inductive VisionStep
  | pinch (dist time : ℚ)
  | handLost
deriving DecidableEq, Repr

/-- Effect of one `VisionStep` on the click state. -/
def apply_step (s : ClickState) : VisionStep → ClickState
  | .pinch d t => (process_pinch s d t).1
  | .handLost => (emergency_release s).1

/-! ## HandState (thread-safe shared hand observation) -/

/-- Mutable fields of the `HandState` container (the lock is a run-time
artefact with no logical content). -/
structure HandState where
  index_x : ℚ := 0
  index_y : ℚ := 0
  thumb_x : ℚ := 0
  thumb_y : ℚ := 0
  pinch_dist : ℚ := 100
  hand_detected : Bool := false
  cursor_active : Bool := false
  mode : GestureMode := .idle
  last_update : ℚ := 0
deriving DecidableEq, Repr

/-- The dictionary returned by `HandState.get_snapshot`. -/
structure Snapshot where
  index_x : ℚ := 0
  index_y : ℚ := 0
  thumb_x : ℚ := 0
  thumb_y : ℚ := 0
  pinch_dist : ℚ := 100
  mode : GestureMode := .idle
  cursor_active : Bool := false
  detected : Bool := false
deriving DecidableEq, Repr

/-- Model of `HandState.update`: publish a fresh observation; `now` stands for the
`time.perf_counter()` call. -/
def HandState.update (s : HandState) (ix iy tx ty pd : ℚ) (m : GestureMode)
    (ca : Bool) (now : ℚ) : HandState :=
  { s with index_x := ix, index_y := iy, thumb_x := tx, thumb_y := ty, pinch_dist := pd, mode := m, cursor_active := ca, hand_detected := true, last_update := now }

/-- Model of `HandState.get_snapshot`: if the stored observation is older than the
100 ms staleness timeout, the detection flags and mode are cleared, and the
cleared values are what the returned snapshot carries.  Returns the snapshot
together with the (possibly cleared) stored state. -/
def HandState.get_snapshot (s : HandState) (now : ℚ) : Snapshot × HandState :=
  let s' :=
    if now - s.last_update > STALENESS_TIMEOUT then
      { s with hand_detected := false, cursor_active := false, mode := GestureMode.idle }
    else s
  ({ index_x := s'.index_x, index_y := s'.index_y, thumb_x := s'.thumb_x, thumb_y := s'.thumb_y, pinch_dist := s'.pinch_dist, mode := s'.mode, cursor_active := s'.cursor_active, detected := s'.hand_detected }, s')

/-- Model of `HandState.clear`: called by the vision loop when no hand is detected. -/
def HandState.clear (s : HandState) : HandState :=
  { s with hand_detected := false, cursor_active := false, mode := GestureMode.idle }

/-! ## CursorSmoother (vision_service.py) -/

/-- The `CursorSmoother` filter: exponential smoothing filter.  The Python object stores
`x`/`y` as `None` until the first observation and always assigns them
together, so they are modelled as one optional pair. -/
structure CursorSmoother where
  alpha_normal : ℚ := 2/5
  alpha_sniper : ℚ := 3/20
  pos : Option (ℚ × ℚ) := none
deriving DecidableEq, Repr

/-- Model of `CursorSmoother.smooth(raw_x, raw_y, sniper_mode)`: returns the smoothed
point and the updated filter. -/
def CursorSmoother.smooth (s : CursorSmoother) (raw_x raw_y : ℚ)
    (sniper_mode : Bool) : (ℚ × ℚ) × CursorSmoother :=
  let alpha := if sniper_mode then s.alpha_sniper else s.alpha_normal
  match s.pos with
  | none => ((raw_x, raw_y), { s with pos := some (raw_x, raw_y) })
  | some (px, py) =>
    let nx := alpha * raw_x + (1 - alpha) * px
    let ny := alpha * raw_y + (1 - alpha) * py
    ((nx, ny), { s with pos := some (nx, ny) })

/-- Model of `CursorSmoother.reset`: clears the filter history.  (Defined in the
source but never invoked by any caller.) -/
def CursorSmoother.reset (s : CursorSmoother) : CursorSmoother :=
  { s with pos := none }

/-- The smoothing step of one `cursor_thread` iteration, as written in the
source: only when the snapshot has `detected` and `cursor_active` does the
thread smooth the index position (sniper mode iff the pinch distance is below
`SNIPER_DISTANCE`); on any other tick the smoother is left untouched — the
loop contains no call to `CursorSmoother.reset`.  Returns the smoothed point
(when one is produced) and the smoother carried to the next iteration. -/
def cursor_thread_tick (sm : CursorSmoother) (st : Snapshot) :
    Option (ℚ × ℚ) × CursorSmoother :=
  if st.detected = true ∧ st.cursor_active = true then
    let r := sm.smooth st.index_x st.index_y (decide (st.pinch_dist < SNIPER_DISTANCE))
    (some r.1, r.2)
  else
    (none, sm)

/-! ## FastSmoother (gesture_math.py) -/

/-- Mode string returned by `FastSmoother.update`. -/
inductive SmootherMode
  | frozen
  | normal
  | sniper
deriving DecidableEq, Repr

/-- The `FastSmoother` filter: exponential smoother with a click-freeze counter.  As in
`CursorSmoother`, the `x`/`y` fields (`None` until first update, always
assigned together) are one optional pair. -/
structure FastSmoother where
  alpha : ℚ := 7/20
  sniper_alpha : ℚ := 3/20
  pos : Option (ℚ × ℚ) := none
  freeze_frames : ℕ := 0
deriving DecidableEq, Repr

/-- Model of `FastSmoother.update(raw_x, raw_y, finger_distance)`: returns
`(smoothed_x, smoothed_y, mode)` — each coordinate is `none` exactly when the
Python code would return `None` — and the updated filter. -/
def FastSmoother.update (s : FastSmoother) (raw_x raw_y finger_distance : ℚ) :
    (Option ℚ × Option ℚ × SmootherMode) × FastSmoother :=
  -- Click freeze (stabilize cursor during click)
  if s.freeze_frames > 0 then
    ((s.pos.map Prod.fst, s.pos.map Prod.snd, .frozen),
      { s with freeze_frames := s.freeze_frames - 1 })
  else
    -- Adaptive smoothing based on pinch distance
    let am := if finger_distance < 40 then (s.sniper_alpha, SmootherMode.sniper)
              else (s.alpha, SmootherMode.normal)
    match s.pos with
    | none => ((some raw_x, some raw_y, am.2), { s with pos := some (raw_x, raw_y) })
    | some (px, py) =>
      let nx := am.1 * raw_x + (1 - am.1) * px
      let ny := am.1 * raw_y + (1 - am.1) * py
      ((some nx, some ny, am.2), { s with pos := some (nx, ny) })

/-- Model of `FastSmoother.trigger_click_freeze(frames)`. -/
def FastSmoother.trigger_click_freeze (s : FastSmoother) (frames : ℕ) : FastSmoother :=
  { s with freeze_frames := frames }

/-- Run a sequence of `FastSmoother.update` calls on inputs
`(raw_x, raw_y, finger_distance)`; collect the returned triples in order. -/
def run_updates (s : FastSmoother) :
    List (ℚ × ℚ × ℚ) → List (Option ℚ × Option ℚ × SmootherMode) × FastSmoother
  | [] => ([], s)
  | (rx, ry, fd) :: rest =>
    let r := s.update rx ry fd
    let r' := run_updates r.2 rest
    (r.1 :: r'.1, r'.2)

/-! ## GestureRecognizer -/

/-- The finger-extension dictionary produced by
`GestureRecognizer.get_finger_states`. -/
structure FingerStates where
  thumb : Bool
  index : Bool
  middle : Bool
  ring : Bool
  pinky : Bool
deriving DecidableEq, Repr

/-- Model of `GestureRecognizer.recognize_mode(fingers, pinch_dist)`: the if/elif
chain from the source. -/
def recognize_mode (f : FingerStates) (pinch_dist : ℚ) : GestureMode :=
  -- Cursor mode: only index finger up
  if f.index = true ∧ f.middle = false ∧ f.ring = false then
    .cursor
  -- Scroll mode: index + middle + ring up
  else if f.index = true ∧ f.middle = true ∧ f.ring = true ∧ f.pinky = false then
    .scrolling
  -- Volume control: shaka (thumb + pinky, others down)
  else if f.thumb = true ∧ f.pinky = true ∧ f.index = false then
    .volume
  -- Media control: fist (all fingers down)
  else if ¬(f.index = true ∨ f.middle = true ∨ f.ring = true) then
    .media
  else
    .idle

/-- The rule list stated by the spec for gesture classification, kept as an ordered list
of (condition, mode) pairs so that "first match wins" is explicit. -/
def spec_rule_list : List ((FingerStates → Bool) × GestureMode) :=
  [ (fun f => f.index && !f.middle && !f.ring, .cursor),
    (fun f => f.index && f.middle && f.ring && !f.pinky, .scrolling),
    (fun f => f.thumb && f.pinky && !f.index, .volume),
    (fun f => !f.index && !f.middle && !f.ring, .media) ]

/-- First-match evaluation of an ordered rule list, defaulting to `Idle`. -/
def first_match (f : FingerStates) :
    List ((FingerStates → Bool) × GestureMode) → GestureMode
  | [] => .idle
  | (c, m) :: rest => if c f then m else first_match f rest

/-! ## Helper lemmas -/

/-- The function `emergency_release` leaves both buttons up and issues exactly the
button-up events for the buttons that were down. -/
lemma emergency_release_spec (s : ClickState) :
    (emergency_release s).1.is_left_down = false ∧
    (emergency_release s).1.is_right_down = false ∧
    (MouseEvent.leftUp ∈ (emergency_release s).2 ↔ s.is_left_down = true) ∧
    (MouseEvent.rightUp ∈ (emergency_release s).2 ↔ s.is_right_down = true) ∧
    ∀ e ∈ (emergency_release s).2, e = MouseEvent.leftUp ∨ e = MouseEvent.rightUp := by
  cases hl : s.is_left_down <;> cases hr : s.is_right_down <;>
    simp [emergency_release, hl, hr]

/-- The function `process_pinch` never leaves both buttons down, provided they were not
both down before the call. -/
lemma process_pinch_mutex (s : ClickState) (d t : ℚ)
    (h : s.is_left_down = false ∨ s.is_right_down = false) :
    (process_pinch s d t).1.is_left_down = false ∨
    (process_pinch s d t).1.is_right_down = false := by
  cases hl : s.is_left_down <;> cases hr : s.is_right_down <;>
    simp [process_pinch, hl, hr] <;> split_ifs <;> simp_all

/-- Every vision step preserves button mutual exclusion. -/
lemma apply_step_mutex (s : ClickState) (st : VisionStep)
    (h : s.is_left_down = false ∨ s.is_right_down = false) :
    (apply_step s st).is_left_down = false ∨
    (apply_step s st).is_right_down = false := by
  cases st with
  | pinch d t => exact process_pinch_mutex s d t h
  | handLost =>
    have h' := emergency_release_spec s
    exact Or.inl h'.1

/-- Button mutual exclusion is preserved along any sequence of vision steps. -/
lemma foldl_apply_step_mutex (steps : List VisionStep) (s : ClickState)
    (h : s.is_left_down = false ∨ s.is_right_down = false) :
    (List.foldl apply_step s steps).is_left_down = false ∨
    (List.foldl apply_step s steps).is_right_down = false := by
  induction steps generalizing s with
  | nil => simpa using h
  | cons st rest ih => exact ih (apply_step s st) (apply_step_mutex s st h)

/-- The right-click upgrade branch of `process_pinch`: left button fully
released (the `leftUp` event precedes the right-click pulse), state flips to
right-down, `last_click_time` stamped. -/
lemma process_pinch_upgrade (s : ClickState) (d t : ℚ)
    (hl : s.is_left_down = true) (hd : d < PINCH_CLICK)
    (hh : t - s.pinch_start_time > RIGHT_CLICK_HOLD) :
    process_pinch s d t =
      ({ s with is_left_down := false, is_right_down := true, last_click_time := t },
        MouseEvent.leftUp :: right_click_pulse, PinchStatus.rightClickStatus) := by
  simp [process_pinch, hl, hd, hh]

/-! ## Claims -/

/-- C1: for every sequence of `process_pinch` calls followed by a hand-lost
observation (the vision loop calls `emergency_release`), immediately after
`emergency_release` both `is_left_down` and `is_right_down` are false, and a
button-up is issued for exactly those buttons whose flag was true at that
moment, regardless of timers. -/
theorem no_stuck_button (trace : List (ℚ × ℚ)) :
    (emergency_release (run_pinches ClickState.init trace).1).1.is_left_down = false ∧
    (emergency_release (run_pinches ClickState.init trace).1).1.is_right_down = false ∧
    (MouseEvent.leftUp ∈ (emergency_release (run_pinches ClickState.init trace).1).2 ↔
      (run_pinches ClickState.init trace).1.is_left_down = true) ∧
    (MouseEvent.rightUp ∈ (emergency_release (run_pinches ClickState.init trace).1).2 ↔
      (run_pinches ClickState.init trace).1.is_right_down = true) ∧
    ∀ e ∈ (emergency_release (run_pinches ClickState.init trace).1).2,
      e = MouseEvent.leftUp ∨ e = MouseEvent.rightUp :=
  emergency_release_spec (run_pinches ClickState.init trace).1

/-- Witness for C1: the membership hypothesis of the last conjunct discharged
on the concrete trace `[(25, 1)]`, whose press leaves the left button down. -/
theorem no_stuck_button_witness :
    (emergency_release (run_pinches ClickState.init [(25, 1)]).1).1.is_left_down = false ∧
    (MouseEvent.leftUp = MouseEvent.leftUp ∨ MouseEvent.leftUp = MouseEvent.rightUp) :=
  ⟨(no_stuck_button [(25, 1)]).1,
   (no_stuck_button [(25, 1)]).2.2.2.2 MouseEvent.leftUp (by
     norm_num [run_pinches, process_pinch, emergency_release, ClickState.init,
       PINCH_CLICK, CLICK_DEBOUNCE])⟩

/-- C2: in every state reachable from the initial `ClickState` by any
sequence of `process_pinch` and `emergency_release` calls, `is_left_down`
and `is_right_down` are never simultaneously true; and the right-click
upgrade path sets `is_left_down` to false — with the left button-up event
issued first, before the right-click pulse — and only then marks
`is_right_down`. -/
theorem mutual_exclusion (steps : List VisionStep) :
    (¬((List.foldl apply_step ClickState.init steps).is_left_down = true ∧
       (List.foldl apply_step ClickState.init steps).is_right_down = true)) ∧
    ∀ (s : ClickState) (d t : ℚ), s.is_left_down = true → d < PINCH_CLICK →
      t - s.pinch_start_time > RIGHT_CLICK_HOLD →
      (process_pinch s d t).2.1 = MouseEvent.leftUp :: right_click_pulse ∧
      (process_pinch s d t).1.is_left_down = false ∧
      (process_pinch s d t).1.is_right_down = true := by
  constructor
  · have h := foldl_apply_step_mutex steps ClickState.init (Or.inl rfl)
    rcases h with h | h <;> simp [h]
  · intro s d t hl hd hh
    simp [process_pinch_upgrade s d t hl hd hh]

/-- Witness for C2: the upgrade conjunct discharged on a concrete pressed
state, pinch distance 25 and hold time 1 s. -/
theorem mutual_exclusion_witness :
    (process_pinch { ClickState.init with is_left_down := true } 25 1).2.1 =
      MouseEvent.leftUp :: right_click_pulse ∧
    (process_pinch { ClickState.init with is_left_down := true } 25 1).1.is_left_down = false ∧
    (process_pinch { ClickState.init with is_left_down := true } 25 1).1.is_right_down = true :=
  (mutual_exclusion []).2 { ClickState.init with is_left_down := true } 25 1
    rfl (by norm_num [PINCH_CLICK]) (by norm_num [RIGHT_CLICK_HOLD, ClickState.init])

/-- After the right-click upgrade (left up, right flagged), further calls with
the pinch still below the click threshold change nothing and emit nothing. -/
lemma process_pinch_inert_right (s : ClickState) (d t : ℚ)
    (h1 : s.is_left_down = false) (h2 : s.is_right_down = true)
    (hd : d < PINCH_CLICK) :
    process_pinch s d t = (s, [], .empty) := by
  simp [process_pinch, h1, h2, hd]

/-- Iterated version of `process_pinch_inert_right`. -/
lemma run_pinches_inert_right (rest : List (ℚ × ℚ)) (s : ClickState)
    (h1 : s.is_left_down = false) (h2 : s.is_right_down = true)
    (hall : ∀ p ∈ rest, p.1 < PINCH_CLICK) :
    run_pinches s rest = (s, []) := by
  induction rest with
  | nil => rfl
  | cons p rest ih =>
    obtain ⟨d, t⟩ := p
    have hd : d < PINCH_CLICK := hall (d, t) (List.mem_cons_self _ _)
    have hall' : ∀ q ∈ rest, q.1 < PINCH_CLICK := fun q hq => hall q (List.mem_cons_of_mem _ hq)
    simp [run_pinches, process_pinch_inert_right s d t h1 h2 hd, ih hall']

/-- C3: a `get_snapshot` call made more than 100 ms after `last_update`
returns a snapshot with `detected = false`, `cursor_active = false` and
`mode = Idle` regardless of the stored values — the forcing is applied to the
returned snapshot itself; in particular, after a publish at t = 0, a read at
t = 0.2 s returns `detected = false`. -/
theorem staleness_forced (s : HandState) (now : ℚ)
    (h : now - s.last_update > STALENESS_TIMEOUT) :
    ((s.get_snapshot now).1.detected = false ∧
     (s.get_snapshot now).1.cursor_active = false ∧
     (s.get_snapshot now).1.mode = GestureMode.idle) ∧
    ∀ (s₀ : HandState) (ix iy tx ty pd : ℚ) (m : GestureMode) (ca : Bool),
      ((s₀.update ix iy tx ty pd m ca 0).get_snapshot (1/5)).1.detected = false := by
  constructor
  · simp [HandState.get_snapshot, h]
  · intro s₀ ix iy tx ty pd m ca
    norm_num [HandState.get_snapshot, HandState.update, STALENESS_TIMEOUT]

/-- Witness for C3: a stored state stamped at time 0 read at time 1, and a
publish at t = 0 read at t = 0.2 with `detected = true` and mode `Cursor`
stored. -/
theorem staleness_forced_witness :
    (({ hand_detected := true, cursor_active := true, mode := GestureMode.cursor,
        last_update := 0 : HandState }.get_snapshot 1).1.detected = false ∧
     ({ hand_detected := true, cursor_active := true, mode := GestureMode.cursor,
        last_update := 0 : HandState }.get_snapshot 1).1.cursor_active = false ∧
     ({ hand_detected := true, cursor_active := true, mode := GestureMode.cursor,
        last_update := 0 : HandState }.get_snapshot 1).1.mode = GestureMode.idle) ∧
    ((({} : HandState).update 1 2 3 4 5 GestureMode.cursor true 0).get_snapshot (1/5)).1.detected
      = false :=
  ⟨(staleness_forced _ 1 (by norm_num [STALENESS_TIMEOUT])).1,
   (staleness_forced { last_update := 0 } 1 (by norm_num [STALENESS_TIMEOUT])).2
     {} 1 2 3 4 5 GestureMode.cursor true⟩

/-- C4: from a pressed state, a call still below the click threshold but with
hold time beyond 0.5 s issues exactly one left button-up followed by exactly
one complete right-click pulse, flips the state to right-down with
`last_click_time` stamped, and every subsequent call with the pinch still
below the click threshold issues no further events and leaves the state
unchanged. -/
theorem right_click_upgrade (s : ClickState) (d t : ℚ)
    (hl : s.is_left_down = true) (hd : d < PINCH_CLICK)
    (hh : t - s.pinch_start_time > RIGHT_CLICK_HOLD) :
    (process_pinch s d t).2.1 =
      [MouseEvent.leftUp, MouseEvent.rightDown, MouseEvent.rightUp] ∧
    (process_pinch s d t).2.2 = PinchStatus.rightClickStatus ∧
    (process_pinch s d t).1.is_left_down = false ∧
    (process_pinch s d t).1.is_right_down = true ∧
    (process_pinch s d t).1.last_click_time = t ∧
    ∀ rest : List (ℚ × ℚ), (∀ p ∈ rest, p.1 < PINCH_CLICK) →
      (run_pinches (process_pinch s d t).1 rest).2 = [] ∧
      (run_pinches (process_pinch s d t).1 rest).1 = (process_pinch s d t).1 := by
  rw [process_pinch_upgrade s d t hl hd hh]
  refine ⟨rfl, rfl, rfl, rfl, rfl, ?_⟩
  intro rest hall
  rw [run_pinches_inert_right rest _ rfl rfl hall]
  exact ⟨rfl, rfl⟩

/-- Witness for C4: pressed state with `pinch_start_time = 0`, call at
distance 25 and time 1, followed by further sub-threshold calls. -/
theorem right_click_upgrade_witness :
    (process_pinch { ClickState.init with is_left_down := true } 25 1).2.1 =
      [MouseEvent.leftUp, MouseEvent.rightDown, MouseEvent.rightUp] ∧
    (run_pinches (process_pinch { ClickState.init with is_left_down := true } 25 1).1
        [(20, 2), (10, 3)]).2 = [] := by
  have h := right_click_upgrade { ClickState.init with is_left_down := true } 25 1
    rfl (by norm_num [PINCH_CLICK]) (by norm_num [RIGHT_CLICK_HOLD, ClickState.init])
  exact ⟨h.1, (h.2.2.2.2.2 [(20, 2), (10, 3)]
    (by norm_num [PINCH_CLICK])).1⟩

/-- C5: on distances [60, 25, 40, 55] from the initial state (debounce
satisfied at the second call, hold duration below the right-click threshold),
the run emits exactly one left button-down (at distance 25) and one left
button-up (at distance 55); the call at distance 40, between the click and
release thresholds, emits nothing and leaves the pressed state unchanged. -/
theorem hysteresis_trace (t1 t2 t3 t4 : ℚ)
    (h2 : t2 - ClickState.init.last_click_time > CLICK_DEBOUNCE)
    (h3 : t3 - t2 < RIGHT_CLICK_HOLD) :
    (run_pinches ClickState.init [(60, t1), (25, t2), (40, t3), (55, t4)]).2 =
      [MouseEvent.leftDown, MouseEvent.leftUp] ∧
    (process_pinch (run_pinches ClickState.init [(60, t1), (25, t2)]).1 40 t3).2.1 = [] ∧
    (process_pinch (run_pinches ClickState.init [(60, t1), (25, t2)]).1 40 t3).1 =
      (run_pinches ClickState.init [(60, t1), (25, t2)]).1 := by
  have h2' : (3/20 : ℚ) < t2 := by
    simpa [ClickState.init, CLICK_DEBOUNCE] using h2
  refine ⟨?_, ?_, ?_⟩ <;>
    norm_num [run_pinches, process_pinch, ClickState.init,
      PINCH_CLICK, PINCH_RELEASE, CLICK_DEBOUNCE, RIGHT_CLICK_HOLD, h2']

/-- Witness for C5 at t = 0, 1, 5/4, 3/2. -/
theorem hysteresis_trace_witness :
    (run_pinches ClickState.init [(60, 0), (25, 1), (40, 5/4), (55, 3/2)]).2 =
      [MouseEvent.leftDown, MouseEvent.leftUp] :=
  (hysteresis_trace 0 1 (5/4) (3/2)
    (by norm_num [ClickState.init, CLICK_DEBOUNCE])
    (by norm_num [RIGHT_CLICK_HOLD])).1

/-- C6: a left button-down is issued only when the pinch distance is below
the click threshold, no button is down, and the debounce interval since
`last_click_time` has elapsed; consequently distances [25, 60, 25] at times
t, t+0.05, t+0.08 from a ready state produce exactly one press event. -/
theorem debounce_single_press :
    (∀ (s : ClickState) (d t : ℚ), MouseEvent.leftDown ∈ (process_pinch s d t).2.1 →
      d < PINCH_CLICK ∧ s.is_left_down = false ∧ s.is_right_down = false ∧
      t - s.last_click_time > CLICK_DEBOUNCE) ∧
    ∀ (t0 : ℚ) (s : ClickState), s.is_left_down = false → s.is_right_down = false →
      t0 - s.last_click_time > CLICK_DEBOUNCE →
      List.count MouseEvent.leftDown
        (run_pinches s [(25, t0), (60, t0 + 1/20), (25, t0 + 2/25)]).2 = 1 := by
  constructor
  · intro s d t h
    simp only [process_pinch] at h
    split_ifs at h with h1 h2 h3 h4 h5 <;>
      simp_all [right_click_pulse]
  · intro t0 s hl hr hdeb
    have hdeb' : (3/20 : ℚ) < t0 - s.last_click_time := by
      simpa [CLICK_DEBOUNCE] using hdeb
    norm_num [run_pinches, process_pinch, hl, hr, hdeb',
      PINCH_CLICK, PINCH_RELEASE, CLICK_DEBOUNCE, RIGHT_CLICK_HOLD,
      add_sub_add_left_eq_sub]
    decide

/-- Witness for C6: the only-if conditions recovered from the concrete press
`process_pinch init 25 1`, and the three-call run from the initial state. -/
theorem debounce_single_press_witness :
    ((25:ℚ) < PINCH_CLICK ∧ ClickState.init.is_left_down = false ∧
      ClickState.init.is_right_down = false ∧
      (1:ℚ) - ClickState.init.last_click_time > CLICK_DEBOUNCE) ∧
    List.count MouseEvent.leftDown
      (run_pinches ClickState.init [(25, 1), (60, 1 + 1/20), (25, 1 + 2/25)]).2 = 1 :=
  ⟨debounce_single_press.1 ClickState.init 25 1
      (by norm_num [process_pinch, ClickState.init, PINCH_CLICK, CLICK_DEBOUNCE]),
   debounce_single_press.2 1 ClickState.init rfl rfl
      (by norm_num [ClickState.init, CLICK_DEBOUNCE])⟩

/-- C7: after the first observation, `CursorSmoother.smooth` — with sniper
mode decided by the cursor thread as pinch distance below the sniper
threshold — outputs `alpha * raw + (1 - alpha) * previous` componentwise,
with `alpha = alpha_sniper` in sniper mode and `alpha_normal` otherwise; the
first observation returns the raw input unchanged; and the default
`alpha_normal` exceeds the default `alpha_sniper`. -/
theorem smoother_update_law (s : CursorSmoother) (pinch rx ry px py : ℚ)
    (h : s.pos = some (px, py)) :
    (pinch < SNIPER_DISTANCE →
      (s.smooth rx ry (decide (pinch < SNIPER_DISTANCE))).1 =
        (s.alpha_sniper * rx + (1 - s.alpha_sniper) * px,
         s.alpha_sniper * ry + (1 - s.alpha_sniper) * py)) ∧
    (¬ pinch < SNIPER_DISTANCE →
      (s.smooth rx ry (decide (pinch < SNIPER_DISTANCE))).1 =
        (s.alpha_normal * rx + (1 - s.alpha_normal) * px,
         s.alpha_normal * ry + (1 - s.alpha_normal) * py)) ∧
    (∀ (s₀ : CursorSmoother) (b : Bool), s₀.pos = none →
      (s₀.smooth rx ry b).1 = (rx, ry)) ∧
    ({} : CursorSmoother).alpha_normal > ({} : CursorSmoother).alpha_sniper := by
  refine ⟨fun hp => ?_, fun hp => ?_, fun s₀ b h0 => ?_, by norm_num⟩
  · simp [CursorSmoother.smooth, h, hp]
  · simp [CursorSmoother.smooth, h, hp]
  · simp [CursorSmoother.smooth, h0]

/-- Witness for C7: cold start returns the raw point; a second update at
pinch distance 100 (not sniper) blends with `alpha_normal`; default alphas
ordered. -/
theorem smoother_update_law_witness :
    ((({} : CursorSmoother).smooth 10 20 false).1 = (10, 20)) ∧
    ((({ pos := some (0, 0) } : CursorSmoother).smooth 10 20
        (decide ((100:ℚ) < SNIPER_DISTANCE))).1 =
      (({ pos := some (0, 0) } : CursorSmoother).alpha_normal * 10 +
        (1 - ({ pos := some (0, 0) } : CursorSmoother).alpha_normal) * 0,
       ({ pos := some (0, 0) } : CursorSmoother).alpha_normal * 20 +
        (1 - ({ pos := some (0, 0) } : CursorSmoother).alpha_normal) * 0)) ∧
    ({} : CursorSmoother).alpha_normal > ({} : CursorSmoother).alpha_sniper :=
  ⟨(smoother_update_law { pos := some (0, 0) } 100 10 20 0 0 rfl).2.2.1 {} false rfl,
   (smoother_update_law { pos := some (0, 0) } 100 10 20 0 0 rfl).2.1
     (by norm_num [SNIPER_DISTANCE]),
   (smoother_update_law { pos := some (0, 0) } 100 10 20 0 0 rfl).2.2.2⟩

/-- C8 evidence: the cursor thread never clears the smoother when the mode
leaves Cursor.  An active tick at raw (0, 0), a hand-lost tick, then an
active tick at raw (100, 100) (pinch 100, so `alpha_normal = 2/5`): the
smoother still holds (0, 0) after the loss, and the resumed tick outputs the
blend (40, 40) instead of re-initializing to the raw (100, 100). -/
theorem smoother_survives_mode_exit :
    ((cursor_thread_tick (cursor_thread_tick
        (cursor_thread_tick {}
          { index_x := 0, index_y := 0, pinch_dist := 100,
            detected := true, cursor_active := true, mode := GestureMode.cursor }).2
        {}).2
      { index_x := 100, index_y := 100, pinch_dist := 100,
        detected := true, cursor_active := true, mode := GestureMode.cursor }).1
      = some (40, 40)) ∧
    ((cursor_thread_tick (cursor_thread_tick
        (cursor_thread_tick {}
          { index_x := 0, index_y := 0, pinch_dist := 100,
            detected := true, cursor_active := true, mode := GestureMode.cursor }).2
        {}).2
      { index_x := 100, index_y := 100, pinch_dist := 100,
        detected := true, cursor_active := true, mode := GestureMode.cursor }).1
      ≠ some (100, 100)) ∧
    (cursor_thread_tick
        (cursor_thread_tick {}
          { index_x := 0, index_y := 0, pinch_dist := 100,
            detected := true, cursor_active := true, mode := GestureMode.cursor }).2
        {}).2.pos = some (0, 0) := by
  norm_num [cursor_thread_tick, CursorSmoother.smooth, SNIPER_DISTANCE]

/-- C9: gesture classification is a pure function of the finger booleans
alone — it coincides with first-match evaluation of the ordered rule list of the spec; it
list, and is independent of the pinch-distance argument. -/
theorem recognize_mode_rules (f : FingerStates) (d : ℚ) :
    recognize_mode f d = first_match f spec_rule_list ∧
    ∀ d' : ℚ, recognize_mode f d = recognize_mode f d' := by
  constructor
  · obtain ⟨t, i, m, r, p⟩ := f
    cases t <;> cases i <;> cases m <;> cases r <;> cases p <;> rfl
  · intro d'
    rfl

/-- While frozen with an empty history, `FastSmoother.update` keeps returning
`(none, none, frozen)`, keeps the history empty, and counts the freeze down
by the number of calls. -/
lemma run_updates_frozen (inputs : List (ℚ × ℚ × ℚ)) (s : FastSmoother)
    (h0 : s.pos = none) (hlen : inputs.length ≤ s.freeze_frames) :
    (∀ o ∈ (run_updates s inputs).1, o = (none, none, SmootherMode.frozen)) ∧
    (run_updates s inputs).2.pos = none ∧
    (run_updates s inputs).2.freeze_frames = s.freeze_frames - inputs.length := by
  induction inputs generalizing s with
  | nil => simp [run_updates, h0]
  | cons inp rest ih =>
    obtain ⟨rx, ry, fd⟩ := inp
    have hpos : 0 < s.freeze_frames := by
      have := hlen
      simp only [List.length_cons] at this
      omega
    have hstep : s.update rx ry fd =
        ((none, none, .frozen), { s with freeze_frames := s.freeze_frames - 1 }) := by
      simp [FastSmoother.update, hpos, h0]
    have hlen' : rest.length ≤ s.freeze_frames - 1 := by
      simp only [List.length_cons] at hlen
      omega
    have ih' := ih { s with freeze_frames := s.freeze_frames - 1 } h0 hlen'
    refine ⟨?_, ?_, ?_⟩
    case refine_2 =>
      simp only [run_updates, hstep]
      exact ih'.2.1
    · intro o ho
      simp only [run_updates, hstep, List.mem_cons] at ho
      rcases ho with ho | ho
      · exact ho
      · exact ih'.1 o ho
    · simp only [run_updates, hstep, ih'.2.2]
      simp only [List.length_cons]
      omega

/-- C10: if `trigger_click_freeze n` (n ≥ 1) runs before any update, each of
the next n updates returns `(none, none, frozen)` — non-numeric coordinates —
while decrementing the freeze counter; a freeze triggered after the filter
holds a position returns that stored (numeric) position while frozen. -/
theorem click_freeze_before_first_update (n : ℕ) (hn : 1 ≤ n)
    (inputs : List (ℚ × ℚ × ℚ)) (hlen : inputs.length ≤ n) :
    (∀ o ∈ (run_updates (FastSmoother.trigger_click_freeze {} n) inputs).1,
      o = (none, none, SmootherMode.frozen)) ∧
    (run_updates (FastSmoother.trigger_click_freeze {} n) inputs).2.freeze_frames
      = n - inputs.length ∧
    ∀ (s : FastSmoother) (p : ℚ × ℚ) (k : ℕ) (rx ry fd : ℚ),
      s.pos = some p → 1 ≤ k →
      ((s.trigger_click_freeze k).update rx ry fd).1 =
        (some p.1, some p.2, SmootherMode.frozen) := by
  have base := run_updates_frozen inputs (FastSmoother.trigger_click_freeze {} n)
    rfl (by simpa [FastSmoother.trigger_click_freeze] using hlen)
  refine ⟨base.1, ?_, ?_⟩
  · simpa [FastSmoother.trigger_click_freeze] using base.2.2
  · intro s p k rx ry fd hp hk
    have hkpos : 0 < k := hk
    simp [FastSmoother.update, FastSmoother.trigger_click_freeze, hkpos, hp]

/-- Witness for C10: freeze of 2 on a fresh filter consumed by two updates,
and a freeze of 1 on a filter holding (5, 6). -/
theorem click_freeze_before_first_update_witness :
    ((run_updates (FastSmoother.trigger_click_freeze {} 2)
        [(1, 2, 100), (3, 4, 100)]).2.freeze_frames = 2 - 2) ∧
    ((({ pos := some (5, 6) } : FastSmoother).trigger_click_freeze 1).update 0 0 0).1
      = (some 5, some 6, SmootherMode.frozen) :=
  ⟨(click_freeze_before_first_update 2 (by norm_num) [(1, 2, 100), (3, 4, 100)]
      (by norm_num)).2.1,
   (click_freeze_before_first_update 2 (by norm_num) [(1, 2, 100), (3, 4, 100)]
      (by norm_num)).2.2 { pos := some (5, 6) } (5, 6) 1 0 0 0 rfl (by norm_num)⟩

end Aura
